import Mathlib

/-!
Verification of the prompt-to-screen generation and recovery pipeline
of the AI vibe website builder (generation endpoint in
`src/app/api/chat/route.ts`).

Strings are modelled as `List Char`.  The JavaScript `JSON.parse`
builtin is modelled by a fuel-indexed recursive-descent parser over the
JSON grammar (objects, arrays, strings with escapes, numbers, literals);
JavaScript regular-expression matching is modelled by explicit leftmost
scanning functions whose semantics are derived from each concrete
pattern used in the source.
-/

set_option maxHeartbeats 1000000
set_option maxRecDepth 100000

abbrev Str := List Char

/-- The backtick character (code 96), used by the fenced-code-block
pattern of extraction strategy 2. -/
def tickChar : Char := Char.ofNat 96

/-- Left brace character (code 123). -/
def lbrace : Char := Char.ofNat 123

/-- Right brace character (code 125). -/
def rbrace : Char := Char.ofNat 125

/-- JSON whitespace accepted by `JSON.parse`: space, tab, line feed,
carriage return. -/
def isJsonWs (c : Char) : Bool :=
  c = ' ' || c = '\t' || c = '\n' || c = '\r'

/-- JavaScript regexp `\s` class (ASCII part: space, tab, LF, CR,
form feed, vertical tab; the Unicode space classes do not occur in any
input relevant to this development). -/
def isJsWs (c : Char) : Bool :=
  c = ' ' || c = '\t' || c = '\n' || c = '\r' ||
  c = Char.ofNat 12 || c = Char.ofNat 11

/-- Drop leading JSON whitespace. -/
def skipJsonWs : Str → Str
  | [] => []
  | c :: r => if isJsonWs c then skipJsonWs r else c :: r

/-- Drop leading regexp whitespace (`\s*`). -/
def skipJsWs : Str → Str
  | [] => []
  | c :: r => if isJsWs c then skipJsWs r else c :: r

/-- JavaScript values produced by `JSON.parse` (numbers are kept as
their source lexeme: no claim of this development depends on numeric
magnitude beyond zero-ness). -/
inductive JVal where
  | null
  | bool (b : Bool)
  | num (lexeme : Str)
  | str (s : Str)
  | arr (elems : List JVal)
  | obj (fields : List (Str × JVal))

/-- JavaScript strict equality `v === s` of a value against a string
literal: true exactly when `v` is that string. -/
def jvalIsStr (v : JVal) (s : Str) : Bool :=
  match v with
  | .str t => t == s
  | _ => false

/-- Value of a hexadecimal digit character, if it is one. -/
def hexVal? (c : Char) : Option Nat :=
  if '0' ≤ c ∧ c ≤ '9' then some (c.toNat - '0'.toNat)
  else if 'a' ≤ c ∧ c ≤ 'f' then some (c.toNat - 'a'.toNat + 10)
  else if 'A' ≤ c ∧ c ≤ 'F' then some (c.toNat - 'A'.toNat + 10)
  else none

/-- Body of a JSON string literal after the opening quote: returns the
decoded characters and the remaining input after the closing quote.
Raw control characters are rejected, escapes `\" \\ \/ \b \f \n \r \t
\uXXXX` are decoded (lone-surrogate escapes are rejected; surrogate
pairs do not occur in this development's inputs). -/
def parseStrBody : Str → Option (Str × Str)
  | [] => none
  | c :: rest =>
    if c = '"' then some ([], rest)
    else if c = '\\' then
      match rest with
      | [] => none
      | e :: r =>
        if e = '"' then (parseStrBody r).map (fun p => ('"' :: p.1, p.2))
        else if e = '\\' then (parseStrBody r).map (fun p => ('\\' :: p.1, p.2))
        else if e = '/' then (parseStrBody r).map (fun p => ('/' :: p.1, p.2))
        else if e = 'b' then (parseStrBody r).map (fun p => (Char.ofNat 8 :: p.1, p.2))
        else if e = 'f' then (parseStrBody r).map (fun p => (Char.ofNat 12 :: p.1, p.2))
        else if e = 'n' then (parseStrBody r).map (fun p => ('\n' :: p.1, p.2))
        else if e = 'r' then (parseStrBody r).map (fun p => ('\r' :: p.1, p.2))
        else if e = 't' then (parseStrBody r).map (fun p => ('\t' :: p.1, p.2))
        else if e = 'u' then
          match r with
          | h1 :: h2 :: h3 :: h4 :: r' =>
            match hexVal? h1, hexVal? h2, hexVal? h3, hexVal? h4 with
            | some a, some b, some c', some d =>
              let code := ((a * 16 + b) * 16 + c') * 16 + d
              if 0xD800 ≤ code ∧ code ≤ 0xDFFF then none
              else (parseStrBody r').map (fun p => (Char.ofNat code :: p.1, p.2))
            | _, _, _, _ => none
          | _ => none
        else none
    else if c.toNat < 32 then none
    else (parseStrBody rest).map (fun p => (c :: p.1, p.2))

/-- Longest run of decimal digits at the front. -/
def takeDigits : Str → (Str × Str)
  | [] => ([], [])
  | c :: r =>
    if c.isDigit then
      let (d, r') := takeDigits r
      (c :: d, r')
    else ([], c :: r)

/-- Integer part of a JSON number: `0` or a nonzero digit followed by
digits. -/
def parseIntPart : Str → Option (Str × Str)
  | [] => none
  | c :: r =>
    if c = '0' then some (['0'], r)
    else if c.isDigit then
      let (d, r') := takeDigits r
      some (c :: d, r')
    else none

/-- Optional fractional part `.digits`; consumes nothing when absent or
malformed (a malformed tail is then rejected by the enclosing
structure). -/
def parseFracPart : Str → (Str × Str)
  | '.' :: r =>
    match takeDigits r with
    | ([], _) => ([], '.' :: r)
    | (d, r') => ('.' :: d, r')
  | s => ([], s)

/-- Optional exponent part; consumes nothing when absent or malformed. -/
def parseExpPart : Str → (Str × Str)
  | c :: r =>
    if c = 'e' ∨ c = 'E' then
      let (sgn, r1) :=
        match r with
        | s :: r' => if s = '+' ∨ s = '-' then ([s], r') else ([], r)
        | [] => ([], r)
      match takeDigits r1 with
      | ([], _) => ([], c :: r)
      | (d, r2) => (c :: (sgn ++ d), r2)
    else ([], c :: r)
  | [] => ([], [])

/-- JSON number at the front of the input, kept as its lexeme. -/
def parseNum (cs : Str) : Option (JVal × Str) :=
  let (sgn, r0) := match cs with
                   | '-' :: r => (['-'], r)
                   | _ => ([], cs)
  match parseIntPart r0 with
  | none => none
  | some (ip, r1) =>
    let (fp, r2) := parseFracPart r1
    let (ep, r3) := parseExpPart r2
    some (.num (sgn ++ ip ++ fp ++ ep), r3)

/-- Consume an expected literal keyword tail. -/
def dropLit? (lit : Str) (s : Str) : Option Str :=
  match lit, s with
  | [], s => some s
  | l :: lr, c :: cr => if c = l then dropLit? lr cr else none
  | _ :: _, [] => none

mutual

/-- JSON value parser (fuel-indexed; the fuel strictly exceeds the
nesting depth whenever it exceeds the input length, since every
recursive descent consumes at least one character). -/
def parseVal : Nat → Str → Option (JVal × Str)
  | 0, _ => none
  | n + 1, cs =>
    match skipJsonWs cs with
    | [] => none
    | c :: r =>
      if c = '"' then (parseStrBody r).map (fun p => (.str p.1, p.2))
      else if c = lbrace then
        match skipJsonWs r with
        | [] => none
        | c' :: r' =>
          if c' = rbrace then some (.obj [], r')
          else (parseMembers n (c' :: r')).map (fun p => (.obj p.1, p.2))
      else if c = '[' then
        match skipJsonWs r with
        | [] => none
        | c' :: r' =>
          if c' = ']' then some (.arr [], r')
          else (parseElems n (c' :: r')).map (fun p => (.arr p.1, p.2))
      else if c = 'n' then (dropLit? ['u', 'l', 'l'] r).map (fun r' => (.null, r'))
      else if c = 't' then (dropLit? ['r', 'u', 'e'] r).map (fun r' => (.bool true, r'))
      else if c = 'f' then (dropLit? ['a', 'l', 's', 'e'] r).map (fun r' => (.bool false, r'))
      else parseNum (c :: r)

/-- One or more `"key" : value` members, ending at the closing brace. -/
def parseMembers : Nat → Str → Option (List (Str × JVal) × Str)
  | 0, _ => none
  | n + 1, cs =>
    match skipJsonWs cs with
    | [] => none
    | c :: r =>
      if c = '"' then
        match parseStrBody r with
        | none => none
        | some (k, r1) =>
          match skipJsonWs r1 with
          | [] => none
          | c2 :: r2 =>
            if c2 = ':' then
              match parseVal n r2 with
              | none => none
              | some (v, r3) =>
                match skipJsonWs r3 with
                | [] => none
                | c4 :: r4 =>
                  if c4 = ',' then
                    (parseMembers n r4).map (fun p => ((k, v) :: p.1, p.2))
                  else if c4 = rbrace then some ([(k, v)], r4)
                  else none
            else none
      else none

/-- One or more array elements, ending at the closing bracket. -/
def parseElems : Nat → Str → Option (List JVal × Str)
  | 0, _ => none
  | n + 1, cs =>
    match parseVal n cs with
    | none => none
    | some (v, r) =>
      match skipJsonWs r with
      | [] => none
      | c :: r' =>
        if c = ',' then (parseElems n r').map (fun p => (v :: p.1, p.2))
        else if c = ']' then some ([v], r')
        else none

end

/-- Model of the JavaScript builtin `JSON.parse`: the whole input (up
to surrounding whitespace) must be one JSON value. -/
def jsonParse (cs : Str) : Option JVal :=
  match parseVal (cs.length + 1) cs with
  | some (v, rest) => if skipJsonWs rest = [] then some v else none
  | none => none

/-! ## Regular-expression matchers of the extraction strategies

Each JavaScript regexp used by `extractJSON` is modelled by a scanning
function with the leftmost-match semantics of `String.prototype.match`,
specialised to the concrete pattern. -/

/-- Capture of `[^"]*` followed by a closing quote: the characters up
to the next quote, failing when no quote follows. -/
def captureToQuote : Str → Option Str
  | [] => none
  | c :: r => if c = '"' then some [] else (captureToQuote r).map (c :: ·)

/-- Consume the header `"key"\s*:\s*"` of a field pattern at the
current position, landing right after the opening quote of the value. -/
def fieldHeader? (key : Str) (s : Str) : Option Str :=
  match dropLit? ('"' :: (key ++ ['"'])) s with
  | none => none
  | some s1 =>
    match skipJsWs s1 with
    | [] => none
    | c :: r =>
      if c = ':' then
        match skipJsWs r with
        | [] => none
        | c2 :: r2 => if c2 = '"' then some r2 else none
      else none

/-- Leftmost-match scan: try the position matcher at every suffix, left
to right. -/
def regexScan (tryAt : Str → Option Str) : Str → Option Str
  | [] => none
  | c :: r =>
    match tryAt (c :: r) with
    | some v => some v
    | none => regexScan tryAt r

/-- Model of `text.match(/"key"\s*:\s*"([^"]*)"/)`, returning the first
capture group (used for the `name`, `description` and `cssContent`
fields of strategy 4). -/
def fieldScan (key : Str) (text : Str) : Option Str :=
  regexScan (fun s => (fieldHeader? key s).bind captureToQuote) text

/-- Terminator `(?:,\s*"|\s*})` of the `htmlContent` pattern, checked
after a candidate closing quote. -/
def htmlTermOk (s : Str) : Bool :=
  match s with
  | ',' :: r =>
    match skipJsWs r with
    | '"' :: _ => true
    | _ => false
  | _ =>
    match skipJsWs s with
    | c :: _ => c = rbrace
    | [] => false

/-- Lazy capture `([\s\S]*?)` of the `htmlContent` pattern: the
shortest prefix whose following quote is followed by a valid
terminator. -/
def htmlCapture : Str → Option Str
  | [] => none
  | c :: r =>
    if c = '"' then
      if htmlTermOk r then some [] else (htmlCapture r).map (c :: ·)
    else (htmlCapture r).map (c :: ·)

/-- Model of `text.match(/"htmlContent"\s*:\s*"([\s\S]*?)"(?:,\s*"|\s*})/)`,
returning the first capture group. -/
def htmlFieldScan (text : Str) : Option Str :=
  regexScan (fun s => (fieldHeader? ("htmlContent".toList) s).bind htmlCapture) text

/-- Three backticks, the fence delimiter of strategy 2. -/
def ticksLit : Str := [tickChar, tickChar, tickChar]

/-- Does the closing part `\n?\s*` followed by three backticks match at
this position?  (`\s` covers `\n`, so the optional newline is subsumed
by the whitespace skip.) -/
def tickCloseOk (s : Str) : Bool :=
  match dropLit? ticksLit (skipJsWs s) with
  | some _ => true
  | none => false

/-- Lazy capture `([\s\S]*?)` of the fenced-block pattern: the shortest
prefix after which the closing fence matches. -/
def tickCapture : Str → Option Str
  | [] => none
  | c :: r => if tickCloseOk (c :: r) then some [] else (tickCapture r).map (c :: ·)

/-- Try the fenced-block pattern at the current position: three
backticks, an optional `json` tag, greedy whitespace, then the lazy
capture up to the closing fence. -/
def tryCodeBlockAt (s : Str) : Option Str :=
  match dropLit? ticksLit s with
  | none => none
  | some s1 =>
    let s2 := match dropLit? ("json".toList) s1 with
              | some r => r
              | none => s1
    let s3 := skipJsWs s2
    if tickCloseOk s3 then some [] else tickCapture s3

/-- Model of `text.match(/```(?:json)?\s*\n?([\s\S]*?)\n?\s*```/)`,
returning the first capture group. -/
def codeBlockScan (text : Str) : Option Str :=
  regexScan tryCodeBlockAt text

/-- Longest prefix of the input that ends with the given character
(hence running through its last occurrence), if it occurs at all. -/
def throughLastChar (t : Char) : Str → Option Str
  | [] => none
  | c :: r =>
    match throughLastChar t r with
    | some w => some (c :: w)
    | none => if c = t then some [c] else none

/-- Leftmost match of the greedy pattern `o[\s\S]*t`: from the first
occurrence of `o` through the last occurrence of `t` after it. -/
def spanFirstToLast (o t : Char) : Str → Option Str
  | [] => none
  | c :: r =>
    if c = o then
      match throughLastChar t r with
      | some w => some (c :: w)
      | none => spanFirstToLast o t r
    else spanFirstToLast o t r

/-- Model of `text.match(/\{[\s\S]*\}/)` (strategy 3): the whole match,
from the first opening brace through the last closing brace. -/
def braceSpan (text : Str) : Option Str :=
  spanFirstToLast lbrace rbrace text

/-- Model of `text.match(/<[\s\S]*>/g)`: because the pattern is greedy,
the first match runs through the last `>` of the text, after which no
further `>` remains, so the global match list is exactly one match
(from the first `<` through the last `>`), when one exists. -/
def angleMatchesAll (text : Str) : Option (List Str) :=
  (spanFirstToLast '<' '>' text).map (fun m => [m])

/-! ## extractJSON -/

def nameKey : Str := "name".toList
def descriptionKey : Str := "description".toList
def htmlContentKey : Str := "htmlContent".toList
def cssContentKey : Str := "cssContent".toList

/-- Strategy 2: JSON in a fenced code block. -/
def strat2 (text : Str) : Option JVal :=
  match codeBlockScan text with
  | some inner => jsonParse inner
  | none => none

/-- Strategy 3: JSON object anywhere in the text (first opening brace
to last closing brace). -/
def strat3 (text : Str) : Option JVal :=
  match braceSpan text with
  | some sub => jsonParse sub
  | none => none

/-- Strategy 4: field-by-field regular-expression recovery; succeeds
only when both the `name` and the `htmlContent` patterns match, missing
`description`/`cssContent` defaulting to the empty string. -/
def strat4 (text : Str) : Option JVal :=
  match fieldScan nameKey text, htmlFieldScan text with
  | some n, some h =>
    some (.obj [(nameKey, .str n),
                (descriptionKey, .str ((fieldScan descriptionKey text).getD [])),
                (htmlContentKey, .str h),
                (cssContentKey, .str ((fieldScan cssContentKey text).getD []))])
  | _, _ => none

/-- Model of `extractJSON`: try direct `JSON.parse`, then the fenced
block, then the brace span, then field-by-field recovery; the first
success (including a successfully parsed falsy value such as `null`)
is returned, otherwise no match. -/
def extractJSON (text : Str) : Option JVal :=
  match jsonParse text with
  | some v => some v
  | none =>
    match strat2 text with
    | some v => some v
    | none =>
      match strat3 text with
      | some v => some v
      | none => strat4 text

/-! ## FallbackSynthesizer: generateFallbackHTML -/

/-- The truncated prompt `safePrompt` of `generateFallbackHTML`: at
most 100 characters, with an ellipsis marker appended exactly when the
input is longer than 100 characters. -/
def safePrompt (userPrompt : Str) : Str :=
  if userPrompt.length > 100 then userPrompt.take 100 ++ ("...".toList)
  else userPrompt

/-- Fixed template text before the interpolated prompt. -/
def fallbackTmplPre : Str :=
  ("<div class=\"min-h-screen bg-gray-50 p-6\">\n  <div class=\"max-w-md mx-auto bg-white rounded-2xl shadow-lg overflow-hidden\">\n    <div class=\"bg-indigo-600 px-6 py-4\">\n      <h1 class=\"text-white text-xl font-bold\">Generated Screen</h1>\n    </div>\n    <div class=\"p-6\">\n      <p class=\"text-gray-600 mb-4\">Your request: \"").toList

/-- Fixed template text after the interpolated prompt. -/
def fallbackTmplPost : Str :=
  ("\"</p>\n      <div class=\"bg-gray-100 rounded-xl p-4 text-center\">\n        <p class=\"text-gray-500 text-sm\">AI-generated content will appear here</p>\n      </div>\n      <button class=\"mt-4 w-full bg-indigo-600 text-white py-3 rounded-xl font-medium hover:bg-indigo-700 transition-colors\">\n        Action Button\n      </button>\n    </div>\n  </div>\n</div>").toList

/-- Model of `generateFallbackHTML`: the fixed mobile-screen template
with the truncated prompt interpolated verbatim. -/
def generateFallbackHTML (userPrompt : Str) : Str :=
  fallbackTmplPre ++ safePrompt userPrompt ++ fallbackTmplPost

/-! ## ScreenGenerator: generateScreenData -/

/-- The transient screen record built by `generateScreenData`.  Field
values are JavaScript values: the source assigns whatever the parsed
object held (`parsed.name || ...` etc.), which need not be strings for
arbitrary JSON. -/
structure GenScreen where
  name : JVal
  description : JVal
  htmlContent : JVal
  cssContent : JVal

/-- The literal `"Generated Screen"`. -/
def gsName : Str := "Generated Screen".toList

/-- Last-binding-wins field lookup, as in a JavaScript object built
from duplicate JSON keys. -/
def lookupLastField : List (Str × JVal) → Str → Option JVal
  | [], _ => none
  | (k, v) :: r, key =>
    match lookupLastField r key with
    | some w => some w
    | none => if k = key then some v else none

/-- JavaScript property access `v.key`: defined only on objects,
`undefined` (modelled as `none`) otherwise. -/
def jvGet (v : JVal) (key : Str) : Option JVal :=
  match v with
  | .obj fs => lookupLastField fs key
  | _ => none

/-- Is a JSON number lexeme zero (all mantissa digits zero)? -/
def numIsZero (lex : Str) : Bool :=
  (lex.takeWhile (fun c => !(c = 'e' || c = 'E'))).all
    (fun c => c = '-' || c = '.' || c = '0')

/-- JavaScript truthiness of a JSON-derived value. -/
def jsTruthy : JVal → Bool
  | .null => false
  | .bool b => b
  | .num lex => !(numIsZero lex)
  | .str s => !s.isEmpty
  | .arr _ => true
  | .obj _ => true

/-- Truthiness of a possibly-`undefined` value. -/
def jsTruthyOpt (v : Option JVal) : Bool :=
  match v with
  | some x => jsTruthy x
  | none => false

/-- JavaScript `v || d` on a possibly-`undefined` left operand. -/
def jsOr (v : Option JVal) (d : JVal) : JVal :=
  match v with
  | some x => if jsTruthy x then x else d
  | none => d

/-- Model of `Array.prototype.join("\n")`. -/
def joinWithNewline : List Str → Str
  | [] => []
  | [x] => x
  | x :: xs => x ++ '\n' :: joinWithNewline xs

/-- The record returned when extraction produced a truthy value: each
field backfilled through `||` with its default, the missing or falsy
`htmlContent` replaced by the fallback HTML. -/
def normalizeParsed (prompt : Str) (p : JVal) : GenScreen :=
  { name := jsOr (jvGet p nameKey) (.str gsName),
    description := jsOr (jvGet p descriptionKey) (.str []),
    htmlContent := jsOr (jvGet p htmlContentKey) (.str (generateFallbackHTML prompt)),
    cssContent := jsOr (jvGet p cssContentKey) (.str []) }

/-- The tail of the `try` block after a falsy extraction result:
last-resort angle-bracket scraping, else the thrown parse error. -/
def scrapeOrThrow (text : Str) : Except Str GenScreen :=
  match angleMatchesAll text with
  | some ms =>
    .ok { name := .str gsName,
          description := .str ("Generated from AI response".toList),
          htmlContent := .str (joinWithNewline (ms.take 5)),
          cssContent := .str [] }
  | none => .error ("Could not parse AI response as JSON".toList)

/-- The `try` block of `generateScreenData` applied to the text
returned by the model call. -/
def screenGenBody (prompt text : Str) : Except Str GenScreen :=
  match extractJSON text with
  | some p => if jsTruthy p then .ok (normalizeParsed prompt p) else scrapeOrThrow text
  | none => scrapeOrThrow text

/-- The record built in the `catch` handler (fallback instead of
rethrowing). -/
def fallbackScreen (prompt : Str) : GenScreen :=
  { name := .str gsName,
    description := .str ("Generated from prompt".toList),
    htmlContent := .str (generateFallbackHTML prompt),
    cssContent := .str [] }

/-- Model of `generateScreenData`: the model call's outcome is passed
in (`Except.ok text` for a returned completion, `Except.error` for a
thrown error or timeout); every failure, including the internal parse
throw, is absorbed by the catch handler into the fallback record. -/
def generateScreenData (prompt : Str) (modelOutcome : Except Str Str) : GenScreen :=
  match modelOutcome with
  | .error _ => fallbackScreen prompt
  | .ok text =>
    match screenGenBody prompt text with
    | .ok sd => sd
    | .error _ => fallbackScreen prompt

/-- What `generateScreenData` would return on a model text were the
extraction result treated as NoMatch (the behaviour claim C4
prescribes): proceed to raw markup scraping, else fallback synthesis. -/
def noMatchResult (prompt text : Str) : GenScreen :=
  match scrapeOrThrow text with
  | .ok sd => sd
  | .error _ => fallbackScreen prompt

/-! ## GenerationService: the generation endpoint POST handler

Persistence is modelled as explicit state (`DB`) with the Prisma calls
as pure list operations: `findUnique` is `find?` on the id, `update`
replaces the fields of the row with the given id (throwing, hence the
500 response, when no such row exists), `create` appends a row.  The
identity resolution, the rate-limit decision, the parsed request body,
the model-call outcome, the generated id of a created row and the
current time are inputs of the handler. -/

structure Project where
  id : Str
  userId : Str
  name : Str

/-- A persisted screen row.  The content columns hold the JavaScript
values assigned by the handler; `x`/`y` positions are owned by the
canvas UI (their create-time defaults live in the Prisma schema, which
is not part of the generation source; zero stands for that default). -/
structure Screen where
  id : Str
  projectId : Str
  name : JVal
  htmlContent : JVal
  cssContent : JVal
  x : Int
  y : Int
  width : Int
  height : Int
  createdAt : Nat
  updatedAt : Nat

structure PromptEntry where
  projectId : Str
  content : Str
  role : Str

structure DB where
  projects : List Project
  screens : List Screen
  history : List PromptEntry

/-- A request body that passed the zod schema (`projectId` and `prompt`
nonempty strings, `screenId` optional). -/
structure GenBody where
  projectId : Str
  prompt : Str
  screenId : Option Str

/-- Responses of the generation endpoint: an error JSON body with its
status code, or the 200 success body carrying the screen and the
optional `fallback` flag (`none` models an absent field). -/
inductive GenResp where
  | errJson (status : Nat) (error : Str)
  | success (screen : Screen) (fallback : Option Bool)

/-- The user prompt composed for the model:
`Project: <name>\nRequest: <prompt>`. -/
def composePrompt (projectName userPrompt : Str) : Str :=
  ("Project: ".toList) ++ projectName ++ ("\nRequest: ".toList) ++ userPrompt

/-- The `fallback` response field:
`screenData.name === "Generated Screen" ? true : undefined`. -/
def fallbackFlag (sd : GenScreen) : Option Bool :=
  if jvalIsStr sd.name gsName then some true else none

/-- The create-or-update step plus prompt-history append and response,
after authentication, validation and ownership checks have passed. -/
def performGenerate (db : DB) (body : GenBody) (project : Project)
    (modelOutcome : Except Str Str) (newId : Str) (now : Nat) :
    GenResp × DB :=
  let sd := generateScreenData (composePrompt project.name body.prompt) modelOutcome
  let entry : PromptEntry := ⟨body.projectId, body.prompt, "user".toList⟩
  match body.screenId with
  | some sid =>
    match db.screens.find? (fun s => s.id == sid) with
    | none =>
      -- prisma.screen.update with an unknown id rejects; the outer
      -- catch maps it to the generic 500 response.
      (.errJson 500 ("Failed to generate screen".toList), db)
    | some s0 =>
      let upd : Screen :=
        { s0 with name := sd.name, htmlContent := sd.htmlContent,
                  cssContent := sd.cssContent, updatedAt := now }
      let db' : DB :=
        { db with
          screens := db.screens.map (fun s => if s.id == sid then upd else s),
          history := db.history ++ [entry] }
      (.success upd (fallbackFlag sd), db')
  | none =>
    let created : Screen :=
      { id := newId, projectId := body.projectId, name := sd.name,
        htmlContent := sd.htmlContent, cssContent := sd.cssContent,
        x := 0, y := 0, width := 375, height := 812,
        createdAt := now, updatedAt := now }
    let db' : DB :=
      { db with screens := db.screens ++ [created],
                history := db.history ++ [entry] }
    (.success created (fallbackFlag sd), db')

/-- Model of the generation endpoint `POST` handler: rate limit, caller
identity (401), body schema validation (400), project lookup (404),
ownership check (403), then screen generation and persistence.  The
parsed body is `none` when schema validation failed. -/
def genPOST (db : DB) (rateLimited : Bool) (authUser : Option Str)
    (body : Option GenBody) (modelOutcome : Except Str Str)
    (newId : Str) (now : Nat) : GenResp × DB :=
  if rateLimited then (.errJson 429 ("Too many requests".toList), db)
  else
    match authUser with
    | none => (.errJson 401 ("Unauthorized".toList), db)
    | some userId =>
      match body with
      | none => (.errJson 400 ("Invalid request body".toList), db)
      | some b =>
        match db.projects.find? (fun p => p.id == b.projectId) with
        | none => (.errJson 404 ("Project not found".toList), db)
        | some project =>
          if project.userId ≠ userId then
            (.errJson 403 ("Unauthorized".toList), db)
          else
            performGenerate db b project modelOutcome newId now

/-! ## Spec-side auxiliary definitions -/

/-- Substring test: does `t` occur contiguously inside `s`? -/
def containsSub (s t : Str) : Bool :=
  match s with
  | [] => t.isEmpty
  | c :: r => t.isPrefixOf (c :: r) || containsSub r t

/-- Modelled from the spec: the specification's "escaped for safe
HTML embedding" of one character — the five HTML special characters
replaced by their entities (no such escaping exists in the source). -/
def htmlEscapeChar (c : Char) : Str :=
  if c = '&' then "&amp;".toList
  else if c = '<' then "&lt;".toList
  else if c = '>' then "&gt;".toList
  else if c = '"' then "&quot;".toList
  else if c = Char.ofNat 39 then "&#39;".toList
  else [c]

/-- Modelled from the spec: HTML-escaping of a string, character by
character. -/
def htmlEscapeSpec (s : Str) : Str :=
  s.foldr (fun c acc => htmlEscapeChar c ++ acc) []

/-! ## General lemmas -/

theorem containsSub_append_middle (a b c : Str) :
    containsSub (a ++ b ++ c) b = true := by
  induction a with
  | nil =>
    simp only [List.nil_append]
    cases b with
    | nil =>
      cases c with
      | nil => rfl
      | cons x xs => simp [containsSub, List.isPrefixOf]
    | cons x xs =>
      have hpre : (x :: xs).isPrefixOf ((x :: xs) ++ c) = true := by
        rw [List.isPrefixOf_iff_prefix]
        exact List.prefix_append _ _
      simp [containsSub, hpre]
  | cons a0 a' ih =>
    have hassoc : (a0 :: a') ++ b ++ c = a0 :: (a' ++ b ++ c) := by simp
    rw [hassoc, containsSub, ih, Bool.or_true]

theorem fallbackTmplPre_ne_nil : fallbackTmplPre ≠ [] := by
  intro h
  have : fallbackTmplPre.length = 0 := by rw [h]; rfl
  rw [show fallbackTmplPre.length = 317 from rfl] at this
  exact absurd this (by omega)

theorem generateFallbackHTML_ne_nil (p : Str) : generateFallbackHTML p ≠ [] := by
  unfold generateFallbackHTML
  intro h
  have h1 := (List.append_eq_nil.mp h).1
  exact absurd (List.append_eq_nil.mp h1).1 fallbackTmplPre_ne_nil

theorem jsTruthy_str_of_ne_nil {s : Str} (h : s ≠ []) :
    jsTruthy (.str s) = true := by
  cases s with
  | nil => exact absurd rfl h
  | cons c r => rfl

theorem jsTruthy_jsOr_of (v : Option JVal) (d : JVal) (hd : jsTruthy d = true) :
    jsTruthy (jsOr v d) = true := by
  cases v with
  | none => exact hd
  | some x =>
    show jsTruthy (if jsTruthy x = true then x else d) = true
    by_cases hx : jsTruthy x = true
    · rw [if_pos hx]; exact hx
    · rw [if_neg hx]; exact hd

theorem spanFirstToLast_ne_nil {o t : Char} {s m : Str}
    (h : spanFirstToLast o t s = some m) : m ≠ [] := by
  induction s with
  | nil => simp [spanFirstToLast] at h
  | cons c r ih =>
    rw [spanFirstToLast] at h
    by_cases hc : c = o
    · simp only [hc, if_pos rfl] at h
      cases hw : throughLastChar t r with
      | some w => rw [hw] at h; injection h with h; rw [← h]; simp
      | none => rw [hw] at h; exact ih h
    · rw [if_neg hc] at h
      exact ih h

theorem screenGenBody_ok_html {prompt text : Str} {sd : GenScreen}
    (h : screenGenBody prompt text = .ok sd) :
    jsTruthy sd.htmlContent = true := by
  have hscrape : ∀ sd', scrapeOrThrow text = .ok sd' → jsTruthy sd'.htmlContent = true := by
    intro sd' h'
    cases hspan : spanFirstToLast '<' '>' text with
    | none =>
      have hval : scrapeOrThrow text =
          .error ("Could not parse AI response as JSON".toList) := by
        unfold scrapeOrThrow angleMatchesAll
        rw [hspan]
        rfl
      rw [hval] at h'
      cases h'
    | some m =>
      have hval : scrapeOrThrow text =
          .ok { name := .str gsName,
                description := .str ("Generated from AI response".toList),
                htmlContent := .str (joinWithNewline ([m].take 5)),
                cssContent := .str [] } := by
        unfold scrapeOrThrow angleMatchesAll
        rw [hspan]
        rfl
      rw [hval] at h'
      injection h' with h'
      rw [← h']
      exact jsTruthy_str_of_ne_nil (spanFirstToLast_ne_nil hspan)
  unfold screenGenBody at h
  split at h
  · split at h
    · injection h with h
      rw [← h]
      unfold normalizeParsed
      exact jsTruthy_jsOr_of _ _
        (jsTruthy_str_of_ne_nil (generateFallbackHTML_ne_nil prompt))
    · exact hscrape sd h
  · exact hscrape sd h

theorem fallbackScreen_html (prompt : Str) :
    jsTruthy (fallbackScreen prompt).htmlContent = true :=
  jsTruthy_str_of_ne_nil (generateFallbackHTML_ne_nil prompt)

/-! ## Claim C1 -/

/-- C1: for every user prompt and every outcome of the model call
(returned text of any shape, or a thrown error/timeout),
`generateScreenData` returns a record whose `htmlContent` is truthy —
in particular not the empty string — and a thrown/timeout model call is
absorbed into the fallback record rather than propagated (the function
is total by construction: the internal parse throw and the model error
are both caught by its own handler). -/
theorem generateScreenData_total_nonempty_html (prompt : Str)
    (modelOutcome : Except Str Str) (e : Str) :
    jsTruthy (generateScreenData prompt modelOutcome).htmlContent = true ∧
    (generateScreenData prompt modelOutcome).htmlContent ≠ JVal.str [] ∧
    generateScreenData prompt (.error e) = fallbackScreen prompt := by
  have hmain : jsTruthy (generateScreenData prompt modelOutcome).htmlContent = true := by
    cases modelOutcome with
    | error e' => exact fallbackScreen_html prompt
    | ok text =>
      have hg : generateScreenData prompt (.ok text) =
          (match screenGenBody prompt text with
           | .ok sd => sd
           | .error _ => fallbackScreen prompt) := rfl
      rw [hg]
      cases hsb : screenGenBody prompt text with
      | ok sd => exact screenGenBody_ok_html hsb
      | error e' => exact fallbackScreen_html prompt
  refine ⟨hmain, ?_, rfl⟩
  intro hcontra
  rw [hcontra] at hmain
  exact absurd hmain (by decide)

/-! ## Claim C3 -/

/-- C3 counterexample: the claim says the truncated prompt is embedded
"escaped for safe HTML embedding", but `generateFallbackHTML` performs
no escaping at all: for the prompt `<b>"hi"</b>` the output contains
the raw prompt verbatim and does not contain its HTML-escaped form. -/
theorem generateFallbackHTML_noEscape_counterexample :
    containsSub (generateFallbackHTML ("<b>\"hi\"</b>".toList))
      ("<b>\"hi\"</b>".toList) = true ∧
    containsSub (generateFallbackHTML ("<b>\"hi\"</b>".toList))
      (htmlEscapeSpec ("<b>\"hi\"</b>".toList)) = false := by
  exact ⟨by decide, by decide⟩

/-- C3 (amended): for every input string, `generateFallbackHTML`
truncates the prompt to at most 100 characters, appending an ellipsis
marker exactly when the input exceeds 100 characters, and embeds the
truncated prompt verbatim (unescaped) into the fixed template; the
output always contains the (possibly truncated) raw prompt text, and
the function is total. -/
theorem generateFallbackHTML_truncates_embeds_raw (p : Str) :
    generateFallbackHTML p = fallbackTmplPre ++ safePrompt p ++ fallbackTmplPost ∧
    (safePrompt p).length ≤ 103 ∧
    (p.length ≤ 100 → safePrompt p = p) ∧
    (100 < p.length → safePrompt p = p.take 100 ++ ("...".toList)) ∧
    containsSub (generateFallbackHTML p) (safePrompt p) = true := by
  refine ⟨rfl, ?_, ?_, ?_, containsSub_append_middle _ _ _⟩
  · unfold safePrompt
    by_cases h : p.length > 100
    · rw [if_pos h, List.length_append, List.length_take]
      have h3 : ("...".toList).length = 3 := rfl
      omega
    · rw [if_neg h]
      omega
  · intro h
    unfold safePrompt
    rw [if_neg (by omega)]
  · intro h
    unfold safePrompt
    rw [if_pos h]

/-- Witness for C3's amended theorem at two concrete prompts: a short
prompt is kept intact, an overlong one is truncated with the ellipsis
marker. -/
theorem generateFallbackHTML_truncates_embeds_raw_witness :
    safePrompt ("hello".toList) = "hello".toList ∧
    safePrompt (List.replicate 150 'a') =
      (List.replicate 150 'a').take 100 ++ ("...".toList) :=
  ⟨(generateFallbackHTML_truncates_embeds_raw ("hello".toList)).2.2.1 (by decide),
   (generateFallbackHTML_truncates_embeds_raw (List.replicate 150 'a')).2.2.2.1 (by decide)⟩

/-! ## Claim C4 -/

theorem jsOr_falsy {v : Option JVal} (d : JVal) (h : jsTruthyOpt v = false) :
    jsOr v d = d := by
  cases v with
  | none => rfl
  | some x =>
    show (if jsTruthy x = true then x else d) = d
    rw [if_neg (by simpa [jsTruthyOpt] using h)]

/-- C4 counterexample: on the model text consisting of the object with
only a `name` field, extraction succeeds with a record missing
`htmlContent`, and `generateScreenData` does not treat it as NoMatch:
it keeps the recovered name `MyScreen` (substituting fallback HTML for
the missing content), whereas the NoMatch continuation (raw markup
scraping, then fallback synthesis) would have produced the name
`Generated Screen`. -/
theorem generateScreenData_missingHtml_counterexample :
    extractJSON ("\x7b\"name\": \"MyScreen\"\x7d".toList) =
      some (.obj [("name".toList, .str ("MyScreen".toList))]) ∧
    jvGet (.obj [("name".toList, .str ("MyScreen".toList))]) htmlContentKey = none ∧
    (generateScreenData ("p".toList)
      (.ok ("\x7b\"name\": \"MyScreen\"\x7d".toList))).name =
      .str ("MyScreen".toList) ∧
    (noMatchResult ("p".toList) ("\x7b\"name\": \"MyScreen\"\x7d".toList)).name =
      .str gsName ∧
    generateScreenData ("p".toList) (.ok ("\x7b\"name\": \"MyScreen\"\x7d".toList)) ≠
      noMatchResult ("p".toList) ("\x7b\"name\": \"MyScreen\"\x7d".toList) := by
  refine ⟨rfl, rfl, rfl, rfl, ?_⟩
  intro h
  have hn := congrArg GenScreen.name h
  rw [show (generateScreenData ("p".toList)
        (.ok ("\x7b\"name\": \"MyScreen\"\x7d".toList))).name =
        JVal.str ("MyScreen".toList) from rfl] at hn
  rw [show (noMatchResult ("p".toList) ("\x7b\"name\": \"MyScreen\"\x7d".toList)).name =
        JVal.str gsName from rfl] at hn
  injection hn with hn
  exact absurd hn (by decide)

/-- C4 (amended): whenever extraction yields a truthy record whose
`htmlContent` is missing or falsy, `generateScreenData` does not treat
the result as NoMatch: it returns a record keeping the recovered
`name`, `description` and `cssContent` (each backfilled through `||`
with its default) and substitutes the fallback-synthesized HTML for the
`htmlContent` field only. -/
theorem generateScreenData_missingHtml_substitutes_fallback
    (prompt text : Str) (v : JVal)
    (hext : extractJSON text = some v)
    (htru : jsTruthy v = true)
    (hhtml : jsTruthyOpt (jvGet v htmlContentKey) = false) :
    generateScreenData prompt (.ok text) =
      { name := jsOr (jvGet v nameKey) (.str gsName),
        description := jsOr (jvGet v descriptionKey) (.str []),
        htmlContent := .str (generateFallbackHTML prompt),
        cssContent := jsOr (jvGet v cssContentKey) (.str []) } := by
  have hbody : screenGenBody prompt text = .ok (normalizeParsed prompt v) := by
    unfold screenGenBody
    rw [hext]
    show (if jsTruthy v = true then Except.ok (normalizeParsed prompt v)
          else scrapeOrThrow text) = _
    rw [if_pos htru]
  have hgen : generateScreenData prompt (.ok text) = normalizeParsed prompt v := by
    show (match screenGenBody prompt text with
          | .ok sd => sd
          | .error _ => fallbackScreen prompt) = _
    rw [hbody]
  rw [hgen]
  unfold normalizeParsed
  rw [jsOr_falsy _ hhtml]

/-- Witness for C4's amended theorem at the counterexample input. -/
theorem generateScreenData_missingHtml_substitutes_fallback_witness :
    generateScreenData ("p".toList)
      (.ok ("\x7b\"name\": \"MyScreen\"\x7d".toList)) =
      { name := jsOr (jvGet (.obj [("name".toList, .str ("MyScreen".toList))]) nameKey)
                  (.str gsName),
        description := jsOr (jvGet (.obj [("name".toList, .str ("MyScreen".toList))])
                  descriptionKey) (.str []),
        htmlContent := .str (generateFallbackHTML ("p".toList)),
        cssContent := jsOr (jvGet (.obj [("name".toList, .str ("MyScreen".toList))])
                  cssContentKey) (.str []) } :=
  generateScreenData_missingHtml_substitutes_fallback ("p".toList)
    ("\x7b\"name\": \"MyScreen\"\x7d".toList)
    (.obj [("name".toList, .str ("MyScreen".toList))]) rfl rfl rfl

/-! ## Endpoint helper lemmas -/

/-- The content update applied to an existing screen row: only `name`,
`htmlContent`, `cssContent` and `updatedAt` change. -/
def updScreen (s0 : Screen) (sd : GenScreen) (now : Nat) : Screen :=
  { s0 with name := sd.name, htmlContent := sd.htmlContent,
            cssContent := sd.cssContent, updatedAt := now }

/-- The screen row created when no `screenId` is supplied. -/
def createdScreen (nid : Str) (b : GenBody) (sd : GenScreen) (now : Nat) : Screen :=
  { id := nid, projectId := b.projectId, name := sd.name,
    htmlContent := sd.htmlContent, cssContent := sd.cssContent,
    x := 0, y := 0, width := 375, height := 812,
    createdAt := now, updatedAt := now }

theorem genPOST_success_path (db : DB) (u : Str) (b : GenBody)
    (project : Project) (mo : Except Str Str) (nid : Str) (now : Nat)
    (hp : db.projects.find? (fun p => p.id == b.projectId) = some project)
    (hown : project.userId = u) :
    genPOST db false (some u) (some b) mo nid now =
      performGenerate db b project mo nid now := by
  show (match db.projects.find? (fun p => p.id == b.projectId) with
        | none => (.errJson 404 ("Project not found".toList), db)
        | some project =>
          if project.userId ≠ u then (.errJson 403 ("Unauthorized".toList), db)
          else performGenerate db b project mo nid now) =
      performGenerate db b project mo nid now
  rw [hp]
  show (if project.userId ≠ u then (.errJson 403 ("Unauthorized".toList), db)
        else performGenerate db b project mo nid now) = _
  rw [if_neg (fun hne => hne hown)]

theorem performGenerate_update (db : DB) (b : GenBody) (project : Project)
    (mo : Except Str Str) (nid : Str) (now : Nat) (sid : Str) (s0 : Screen)
    (hsid : b.screenId = some sid)
    (hfind : db.screens.find? (fun s => s.id == sid) = some s0) :
    performGenerate db b project mo nid now =
      (GenResp.success
         (updScreen s0 (generateScreenData (composePrompt project.name b.prompt) mo) now)
         (fallbackFlag (generateScreenData (composePrompt project.name b.prompt) mo)),
       { db with
         screens := db.screens.map (fun s =>
           if s.id == sid
           then updScreen s0 (generateScreenData (composePrompt project.name b.prompt) mo) now
           else s),
         history := db.history ++ [⟨b.projectId, b.prompt, "user".toList⟩] }) := by
  simp only [performGenerate, updScreen, hsid, hfind]

theorem performGenerate_create (db : DB) (b : GenBody) (project : Project)
    (mo : Except Str Str) (nid : Str) (now : Nat)
    (hsid : b.screenId = none) :
    performGenerate db b project mo nid now =
      (GenResp.success
         (createdScreen nid b (generateScreenData (composePrompt project.name b.prompt) mo) now)
         (fallbackFlag (generateScreenData (composePrompt project.name b.prompt) mo)),
       { db with
         screens := db.screens ++
           [createdScreen nid b (generateScreenData (composePrompt project.name b.prompt) mo) now],
         history := db.history ++ [⟨b.projectId, b.prompt, "user".toList⟩] }) := by
  simp only [performGenerate, createdScreen, hsid]

/-! ## Concrete scenario used by the endpoint witnesses -/

def projW : Project := ⟨"P1".toList, "U1".toList, "Proj".toList⟩
def projX : Project := ⟨"P2".toList, "U2".toList, "Other".toList⟩
def scrW : Screen :=
  ⟨"S1".toList, "P1".toList, JVal.str [], JVal.str [], JVal.str [], 1, 2, 300, 600, 0, 0⟩
def scrX : Screen :=
  ⟨"S2".toList, "P2".toList, JVal.str [], JVal.str [], JVal.str [], 3, 4, 375, 812, 0, 0⟩
def dbW : DB := ⟨[projW, projX], [scrW, scrX], []⟩
def moW : Except Str Str := .error ("timeout".toList)
def bUpd : GenBody := ⟨"P1".toList, "hi".toList, some ("S1".toList)⟩
def bNew : GenBody := ⟨"P1".toList, "hi".toList, none⟩
def bMissing : GenBody := ⟨"P9".toList, "hi".toList, none⟩
def bCross : GenBody := ⟨"P1".toList, "hi".toList, some ("S2".toList)⟩

/-! ## Claim C5 -/

/-- C5: on the success path of the generation endpoint, a call carrying
a `screenId` of an existing screen updates that screen's row in place
(the screen list is the pointwise update, its length unchanged — no new
row), while a call without `screenId` appends exactly one new screen
with fixed initial dimensions width 375 and height 812 and the
generated name and content. -/
theorem genPOST_upsert_semantics (db : DB) (u : Str) (b : GenBody)
    (project : Project) (mo : Except Str Str) (nid : Str) (now : Nat)
    (hp : db.projects.find? (fun p => p.id == b.projectId) = some project)
    (hown : project.userId = u) :
    (∀ sid s0, b.screenId = some sid →
        db.screens.find? (fun s => s.id == sid) = some s0 →
        (genPOST db false (some u) (some b) mo nid now).2.screens =
          db.screens.map (fun s =>
            if s.id == sid
            then updScreen s0 (generateScreenData (composePrompt project.name b.prompt) mo) now
            else s) ∧
        ((genPOST db false (some u) (some b) mo nid now).2.screens).length =
          db.screens.length) ∧
    (b.screenId = none →
        (genPOST db false (some u) (some b) mo nid now).2.screens =
          db.screens ++
            [createdScreen nid b (generateScreenData (composePrompt project.name b.prompt) mo) now] ∧
        (createdScreen nid b (generateScreenData (composePrompt project.name b.prompt) mo) now).width = 375 ∧
        (createdScreen nid b (generateScreenData (composePrompt project.name b.prompt) mo) now).height = 812 ∧
        (createdScreen nid b (generateScreenData (composePrompt project.name b.prompt) mo) now).name =
          (generateScreenData (composePrompt project.name b.prompt) mo).name ∧
        (createdScreen nid b (generateScreenData (composePrompt project.name b.prompt) mo) now).htmlContent =
          (generateScreenData (composePrompt project.name b.prompt) mo).htmlContent ∧
        ((genPOST db false (some u) (some b) mo nid now).2.screens).length =
          db.screens.length + 1) := by
  constructor
  · intro sid s0 hsid hfind
    rw [genPOST_success_path db u b project mo nid now hp hown,
        performGenerate_update db b project mo nid now sid s0 hsid hfind]
    refine ⟨rfl, ?_⟩
    show (db.screens.map _).length = db.screens.length
    rw [List.length_map]
  · intro hsid
    rw [genPOST_success_path db u b project mo nid now hp hown,
        performGenerate_create db b project mo nid now hsid]
    refine ⟨rfl, rfl, rfl, rfl, rfl, ?_⟩
    show (db.screens ++ [_]).length = db.screens.length + 1
    rw [List.length_append]
    rfl

/-- Witness for C5 at a concrete database: one update call leaves the
row count unchanged and rewrites the targeted row, one create call
appends the 375×812 row. -/
theorem genPOST_upsert_semantics_witness :
    (genPOST dbW false (some ("U1".toList)) (some bUpd) moW ("N1".toList) 7).2.screens =
      dbW.screens.map (fun s =>
        if s.id == "S1".toList
        then updScreen scrW (generateScreenData (composePrompt projW.name bUpd.prompt) moW) 7
        else s) ∧
    (genPOST dbW false (some ("U1".toList)) (some bNew) moW ("N1".toList) 7).2.screens =
      dbW.screens ++
        [createdScreen ("N1".toList) bNew
          (generateScreenData (composePrompt projW.name bNew.prompt) moW) 7] :=
  ⟨((genPOST_upsert_semantics dbW ("U1".toList) bUpd projW moW ("N1".toList) 7 rfl rfl).1
      ("S1".toList) scrW rfl rfl).1,
   ((genPOST_upsert_semantics dbW ("U1".toList) bNew projW moW ("N1".toList) 7 rfl rfl).2 rfl).1⟩

/-! ## Claim C6 -/

/-- C6: the generation endpoint checks, in order, caller identity
(401 response when absent), project existence (404 when the lookup
fails) and project ownership (403 with error body `Unauthorized` when
the project's `userId` differs from the caller); in each failure case
the result is a constant independent of the model-call outcome `mo`
(which is universally quantified and absent from the right-hand sides),
so the screen generator is invoked only when all three checks pass. -/
theorem genPOST_check_order (db : DB) (bod : Option GenBody) (b : GenBody)
    (mo : Except Str Str) (nid : Str) (now : Nat) (u : Str) (project : Project) :
    genPOST db false none bod mo nid now =
      (.errJson 401 ("Unauthorized".toList), db) ∧
    (db.projects.find? (fun p => p.id == b.projectId) = none →
      genPOST db false (some u) (some b) mo nid now =
        (.errJson 404 ("Project not found".toList), db)) ∧
    (db.projects.find? (fun p => p.id == b.projectId) = some project →
      project.userId ≠ u →
      genPOST db false (some u) (some b) mo nid now =
        (.errJson 403 ("Unauthorized".toList), db)) := by
  refine ⟨rfl, ?_, ?_⟩
  · intro h
    show (match db.projects.find? (fun p => p.id == b.projectId) with
          | none => (.errJson 404 ("Project not found".toList), db)
          | some project =>
            if project.userId ≠ u then (.errJson 403 ("Unauthorized".toList), db)
            else performGenerate db b project mo nid now) =
        (.errJson 404 ("Project not found".toList), db)
    rw [h]
  · intro h hne
    show (match db.projects.find? (fun p => p.id == b.projectId) with
          | none => (.errJson 404 ("Project not found".toList), db)
          | some project =>
            if project.userId ≠ u then (.errJson 403 ("Unauthorized".toList), db)
            else performGenerate db b project mo nid now) =
        (.errJson 403 ("Unauthorized".toList), db)
    rw [h]
    show (if project.userId ≠ u then (.errJson 403 ("Unauthorized".toList), db)
          else performGenerate db b project mo nid now) = _
    rw [if_pos hne]

/-- Witness for C6: the three failure responses at a concrete database
— missing identity, unknown project and non-owner caller. -/
theorem genPOST_check_order_witness :
    genPOST dbW false none (some bUpd) moW ("N1".toList) 7 =
      (.errJson 401 ("Unauthorized".toList), dbW) ∧
    genPOST dbW false (some ("U1".toList)) (some bMissing) moW ("N1".toList) 7 =
      (.errJson 404 ("Project not found".toList), dbW) ∧
    genPOST dbW false (some ("U9".toList)) (some bUpd) moW ("N1".toList) 7 =
      (.errJson 403 ("Unauthorized".toList), dbW) :=
  ⟨(genPOST_check_order dbW (some bUpd) bUpd moW ("N1".toList) 7 ("U1".toList) projW).1,
   (genPOST_check_order dbW none bMissing moW ("N1".toList) 7 ("U1".toList) projW).2.1 rfl,
   (genPOST_check_order dbW none bUpd moW ("N1".toList) 7 ("U9".toList) projW).2.2 rfl
     (by decide)⟩

/-! ## Claim C9 -/

/-- C9: when the generation endpoint updates an existing screen, the
positional and sizing attributes `x`, `y`, `width`, `height` (and the
identity attributes `id`, `projectId`, `createdAt`) of the updated row
are exactly those of the old row; only `name`, `htmlContent`,
`cssContent` and `updatedAt` are modified, and every other row of the
screen table is left unchanged (the new table is the pointwise update
of the old one at the given id). -/
theorem genPOST_update_frame (db : DB) (u : Str) (b : GenBody)
    (project : Project) (mo : Except Str Str) (nid : Str) (now : Nat)
    (sid : Str) (s0 : Screen)
    (hp : db.projects.find? (fun p => p.id == b.projectId) = some project)
    (hown : project.userId = u)
    (hsid : b.screenId = some sid)
    (hfind : db.screens.find? (fun s => s.id == sid) = some s0) :
    (genPOST db false (some u) (some b) mo nid now).2.screens =
      db.screens.map (fun s =>
        if s.id == sid
        then updScreen s0 (generateScreenData (composePrompt project.name b.prompt) mo) now
        else s) ∧
    (updScreen s0 (generateScreenData (composePrompt project.name b.prompt) mo) now).x = s0.x ∧
    (updScreen s0 (generateScreenData (composePrompt project.name b.prompt) mo) now).y = s0.y ∧
    (updScreen s0 (generateScreenData (composePrompt project.name b.prompt) mo) now).width = s0.width ∧
    (updScreen s0 (generateScreenData (composePrompt project.name b.prompt) mo) now).height = s0.height ∧
    (updScreen s0 (generateScreenData (composePrompt project.name b.prompt) mo) now).id = s0.id ∧
    (updScreen s0 (generateScreenData (composePrompt project.name b.prompt) mo) now).projectId = s0.projectId ∧
    (updScreen s0 (generateScreenData (composePrompt project.name b.prompt) mo) now).createdAt = s0.createdAt ∧
    (updScreen s0 (generateScreenData (composePrompt project.name b.prompt) mo) now).name =
      (generateScreenData (composePrompt project.name b.prompt) mo).name ∧
    (updScreen s0 (generateScreenData (composePrompt project.name b.prompt) mo) now).htmlContent =
      (generateScreenData (composePrompt project.name b.prompt) mo).htmlContent ∧
    (updScreen s0 (generateScreenData (composePrompt project.name b.prompt) mo) now).cssContent =
      (generateScreenData (composePrompt project.name b.prompt) mo).cssContent ∧
    (updScreen s0 (generateScreenData (composePrompt project.name b.prompt) mo) now).updatedAt = now := by
  rw [genPOST_success_path db u b project mo nid now hp hown,
      performGenerate_update db b project mo nid now sid s0 hsid hfind]
  exact ⟨rfl, rfl, rfl, rfl, rfl, rfl, rfl, rfl, rfl, rfl, rfl, rfl⟩

/-- Witness for C9 at the concrete database: the updated row keeps the
old position 1,2 and size 300×600. -/
theorem genPOST_update_frame_witness :
    (genPOST dbW false (some ("U1".toList)) (some bUpd) moW ("N1".toList) 7).2.screens =
      dbW.screens.map (fun s =>
        if s.id == "S1".toList
        then updScreen scrW (generateScreenData (composePrompt projW.name bUpd.prompt) moW) 7
        else s) ∧
    (updScreen scrW (generateScreenData (composePrompt projW.name bUpd.prompt) moW) 7).x = scrW.x ∧
    (updScreen scrW (generateScreenData (composePrompt projW.name bUpd.prompt) moW) 7).width = scrW.width :=
  ⟨(genPOST_update_frame dbW ("U1".toList) bUpd projW moW ("N1".toList) 7
      ("S1".toList) scrW rfl rfl rfl rfl).1,
   (genPOST_update_frame dbW ("U1".toList) bUpd projW moW ("N1".toList) 7
      ("S1".toList) scrW rfl rfl rfl rfl).2.1,
   (genPOST_update_frame dbW ("U1".toList) bUpd projW moW ("N1".toList) 7
      ("S1".toList) scrW rfl rfl rfl rfl).2.2.2.1⟩

/-! ## Claim C10 -/

/-- C10: the update branch never compares the target screen's
`projectId` with the ownership-verified `projectId` of the request: for
any existing screen whose `projectId` differs from the request's
project, a caller owning the request's project still gets a success
response and the foreign screen's content is overwritten. -/
theorem genPOST_cross_project_overwrite (db : DB) (u : Str) (b : GenBody)
    (project : Project) (mo : Except Str Str) (nid : Str) (now : Nat)
    (sid : Str) (s0 : Screen)
    (hp : db.projects.find? (fun p => p.id == b.projectId) = some project)
    (hown : project.userId = u)
    (hsid : b.screenId = some sid)
    (hfind : db.screens.find? (fun s => s.id == sid) = some s0)
    (hcross : s0.projectId ≠ b.projectId) :
    (genPOST db false (some u) (some b) mo nid now).1 =
      .success (updScreen s0 (generateScreenData (composePrompt project.name b.prompt) mo) now)
        (fallbackFlag (generateScreenData (composePrompt project.name b.prompt) mo)) ∧
    (genPOST db false (some u) (some b) mo nid now).2.screens =
      db.screens.map (fun s =>
        if s.id == sid
        then updScreen s0 (generateScreenData (composePrompt project.name b.prompt) mo) now
        else s) ∧
    (updScreen s0 (generateScreenData (composePrompt project.name b.prompt) mo) now).projectId ≠
      b.projectId ∧
    (updScreen s0 (generateScreenData (composePrompt project.name b.prompt) mo) now).htmlContent =
      (generateScreenData (composePrompt project.name b.prompt) mo).htmlContent := by
  rw [genPOST_success_path db u b project mo nid now hp hown,
      performGenerate_update db b project mo nid now sid s0 hsid hfind]
  exact ⟨rfl, rfl, hcross, rfl⟩

/-- Witness for C10: caller `U1` owns project `P1` but overwrites
screen `S2`, which belongs to project `P2`, by passing `S2`'s id
together with `P1`'s id. -/
theorem genPOST_cross_project_overwrite_witness :
    (genPOST dbW false (some ("U1".toList)) (some bCross) moW ("N1".toList) 7).1 =
      .success (updScreen scrX (generateScreenData (composePrompt projW.name bCross.prompt) moW) 7)
        (fallbackFlag (generateScreenData (composePrompt projW.name bCross.prompt) moW)) ∧
    (updScreen scrX (generateScreenData (composePrompt projW.name bCross.prompt) moW) 7).projectId ≠
      bCross.projectId :=
  ⟨(genPOST_cross_project_overwrite dbW ("U1".toList) bCross projW moW ("N1".toList) 7
      ("S2".toList) scrX rfl rfl rfl rfl (by decide)).1,
   (genPOST_cross_project_overwrite dbW ("U1".toList) bCross projW moW ("N1".toList) 7
      ("S2".toList) scrX rfl rfl rfl rfl (by decide)).2.2.1⟩

/-! ## Claim C2 -/

/-- The model text of C2's counterexample: a perfectly well-formed
four-field object whose `name` happens to be the literal
`Generated Screen`. -/
def t2model : Str :=
  "\x7b\"name\": \"Generated Screen\", \"description\": \"d\", \"htmlContent\": \"<div>hi</div>\", \"cssContent\": \"x\"\x7d".toList

/-- C2 counterexample: the claim says `fallback` is never true for a
screen whose content came from a successful extraction of the model
output.  But for the model text `t2model`, extraction succeeds on the
first strategy with html content `<div>hi</div>` (conjunct 1), that
extracted content is exactly what the success response's screen stores
(conjunct 3), and the response still carries `fallback = true`
(conjunct 2), because the flag only checks the name against the
literal `Generated Screen`. -/
theorem genPOST_fallback_flag_counterexample :
    extractJSON t2model =
      some (.obj [(nameKey, .str gsName),
                  (descriptionKey, .str ("d".toList)),
                  (htmlContentKey, .str ("<div>hi</div>".toList)),
                  (cssContentKey, .str ("x".toList))]) ∧
    (genPOST dbW false (some ("U1".toList)) (some bNew) (.ok t2model) ("N1".toList) 9).1 =
      .success (createdScreen ("N1".toList) bNew
          (generateScreenData (composePrompt projW.name bNew.prompt) (.ok t2model)) 9)
        (some true) ∧
    (createdScreen ("N1".toList) bNew
        (generateScreenData (composePrompt projW.name bNew.prompt) (.ok t2model)) 9).htmlContent =
      .str ("<div>hi</div>".toList) := by
  exact ⟨rfl, rfl, rfl⟩

/-- C2 (amended): in every success response of the generation endpoint,
the `fallback` field equals `true` exactly when the returned screen's
`name` is the literal string `Generated Screen`, and is absent
otherwise.  The name is only a proxy for fallback provenance: it is
used by every fallback and scraping path, but extraction can also
deliver it, and fallback-substituted html can hide behind another
extracted name. -/
theorem genPOST_fallback_flag (db : DB) (rl : Bool) (au : Option Str)
    (bod : Option GenBody) (mo : Except Str Str) (nid : Str) (now : Nat)
    (sc : Screen) (fb : Option Bool)
    (h : (genPOST db rl au bod mo nid now).1 = .success sc fb) :
    fb = (if jvalIsStr sc.name gsName then some true else none) := by
  cases rl with
  | true => exact GenResp.noConfusion h
  | false =>
  cases au with
  | none => exact GenResp.noConfusion h
  | some u =>
  cases bod with
  | none => exact GenResp.noConfusion h
  | some b =>
  cases hp : db.projects.find? (fun p => p.id == b.projectId) with
  | none =>
    have h404 : genPOST db false (some u) (some b) mo nid now =
        (.errJson 404 ("Project not found".toList), db) := by
      show (match db.projects.find? (fun p => p.id == b.projectId) with
            | none => (GenResp.errJson 404 ("Project not found".toList), db)
            | some project =>
              if project.userId ≠ u then (GenResp.errJson 403 ("Unauthorized".toList), db)
              else performGenerate db b project mo nid now) = _
      rw [hp]
    rw [h404] at h
    exact GenResp.noConfusion h
  | some project =>
    by_cases hown : project.userId = u
    · rw [genPOST_success_path db u b project mo nid now hp hown] at h
      cases hsid : b.screenId with
      | none =>
        rw [performGenerate_create db b project mo nid now hsid] at h
        have h' : GenResp.success
            (createdScreen nid b (generateScreenData (composePrompt project.name b.prompt) mo) now)
            (fallbackFlag (generateScreenData (composePrompt project.name b.prompt) mo)) =
            GenResp.success sc fb := h
        injection h' with h1 h2
        subst h1
        subst h2
        rfl
      | some sid =>
        cases hfind : db.screens.find? (fun s => s.id == sid) with
        | none =>
          have h500 : performGenerate db b project mo nid now =
              (.errJson 500 ("Failed to generate screen".toList), db) := by
            simp only [performGenerate, hsid, hfind]
          rw [h500] at h
          exact GenResp.noConfusion h
        | some s0 =>
          rw [performGenerate_update db b project mo nid now sid s0 hsid hfind] at h
          have h' : GenResp.success
              (updScreen s0 (generateScreenData (composePrompt project.name b.prompt) mo) now)
              (fallbackFlag (generateScreenData (composePrompt project.name b.prompt) mo)) =
              GenResp.success sc fb := h
          injection h' with h1 h2
          subst h1
          subst h2
          rfl
    · have h403 : genPOST db false (some u) (some b) mo nid now =
          (.errJson 403 ("Unauthorized".toList), db) := by
        show (match db.projects.find? (fun p => p.id == b.projectId) with
              | none => (GenResp.errJson 404 ("Project not found".toList), db)
              | some project =>
                if project.userId ≠ u then (GenResp.errJson 403 ("Unauthorized".toList), db)
                else performGenerate db b project mo nid now) = _
        rw [hp]
        show (if project.userId ≠ u then (GenResp.errJson 403 ("Unauthorized".toList), db)
              else performGenerate db b project mo nid now) = _
        rw [if_pos hown]
      rw [h403] at h
      exact GenResp.noConfusion h

/-- Witness for C2's amended theorem: a concrete success response (a
timed-out model call creating a new screen) whose flag is determined by
the name comparison. -/
theorem genPOST_fallback_flag_witness :
    fallbackFlag (generateScreenData (composePrompt projW.name bNew.prompt) moW) =
      (if jvalIsStr (createdScreen ("N1".toList) bNew
           (generateScreenData (composePrompt projW.name bNew.prompt) moW) 7).name gsName
       then some true else none) :=
  genPOST_fallback_flag dbW false (some ("U1".toList)) (some bNew) moW ("N1".toList) 7
    (createdScreen ("N1".toList) bNew
      (generateScreenData (composePrompt projW.name bNew.prompt) moW) 7)
    (fallbackFlag (generateScreenData (composePrompt projW.name bNew.prompt) moW)) rfl

/-! ## C8 machinery -/

def hexDig (n : Nat) : Char :=
  if n < 10 then Char.ofNat ('0'.toNat + n) else Char.ofNat ('a'.toNat + n - 10)

def escapeChar (c : Char) : Str :=
  if c = '"' then ['\\', '"']
  else if c = '\\' then ['\\', '\\']
  else if c = Char.ofNat 8 then ['\\', 'b']
  else if c = Char.ofNat 12 then ['\\', 'f']
  else if c = '\n' then ['\\', 'n']
  else if c = '\r' then ['\\', 'r']
  else if c = '\t' then ['\\', 't']
  else if c.toNat < 32 then
    ['\\', 'u', '0', '0', hexDig (c.toNat / 16), hexDig (c.toNat % 16)]
  else [c]

def escapeStr (s : Str) : Str := s.foldr (fun c acc => escapeChar c ++ acc) []

def strLit (s : Str) : Str := '"' :: (escapeStr s ++ ['"'])

structure ScreenDataRec where
  name : Str
  description : Str
  htmlContent : Str
  cssContent : Str

def serializeScreenData (r : ScreenDataRec) : Str :=
  lbrace :: (strLit nameKey ++ ':' :: ' ' :: (strLit r.name ++ ',' :: ' ' ::
    (strLit descriptionKey ++ ':' :: ' ' :: (strLit r.description ++ ',' :: ' ' ::
    (strLit htmlContentKey ++ ':' :: ' ' :: (strLit r.htmlContent ++ ',' :: ' ' ::
    (strLit cssContentKey ++ ':' :: ' ' :: (strLit r.cssContent ++ [rbrace]))))))))

def screenDataToJVal (r : ScreenDataRec) : JVal :=
  .obj [(nameKey, .str r.name), (descriptionKey, .str r.description),
        (htmlContentKey, .str r.htmlContent), (cssContentKey, .str r.cssContent)]

theorem hexVal?_hexDig {n : Nat} (h : n < 16) : hexVal? (hexDig n) = some n := by
  interval_cases n <;> rfl

theorem psb_quote (rest : Str) : parseStrBody ('"' :: rest) = some ([], rest) := by
  rw [parseStrBody.eq_def]; simp

theorem psb_esc_quote (rest : Str) :
    parseStrBody ('\\' :: '"' :: rest) =
      (parseStrBody rest).map (fun p => ('"' :: p.1, p.2)) := by
  rw [parseStrBody.eq_def]; simp

theorem psb_esc_backslash (rest : Str) :
    parseStrBody ('\\' :: '\\' :: rest) =
      (parseStrBody rest).map (fun p => ('\\' :: p.1, p.2)) := by
  rw [parseStrBody.eq_def]; simp

theorem psb_esc_b (rest : Str) :
    parseStrBody ('\\' :: 'b' :: rest) =
      (parseStrBody rest).map (fun p => (Char.ofNat 8 :: p.1, p.2)) := by
  rw [parseStrBody.eq_def]; simp

theorem psb_esc_f (rest : Str) :
    parseStrBody ('\\' :: 'f' :: rest) =
      (parseStrBody rest).map (fun p => (Char.ofNat 12 :: p.1, p.2)) := by
  rw [parseStrBody.eq_def]; simp

theorem psb_esc_n (rest : Str) :
    parseStrBody ('\\' :: 'n' :: rest) =
      (parseStrBody rest).map (fun p => ('\n' :: p.1, p.2)) := by
  rw [parseStrBody.eq_def]; simp

theorem psb_esc_r (rest : Str) :
    parseStrBody ('\\' :: 'r' :: rest) =
      (parseStrBody rest).map (fun p => ('\r' :: p.1, p.2)) := by
  rw [parseStrBody.eq_def]; simp

theorem psb_esc_t (rest : Str) :
    parseStrBody ('\\' :: 't' :: rest) =
      (parseStrBody rest).map (fun p => ('\t' :: p.1, p.2)) := by
  rw [parseStrBody.eq_def]; simp

theorem psb_plain (c : Char) (rest : Str) (h1 : c ≠ '"') (h2 : c ≠ '\\')
    (h3 : ¬ c.toNat < 32) :
    parseStrBody (c :: rest) =
      (parseStrBody rest).map (fun p => (c :: p.1, p.2)) := by
  rw [parseStrBody.eq_def]; simp [h1, h2, h3]

theorem psb_u (a b c' d : Char) (rest : Str) :
    parseStrBody ('\\' :: 'u' :: a :: b :: c' :: d :: rest) =
      (match hexVal? a, hexVal? b, hexVal? c', hexVal? d with
       | some x1, some x2, some x3, some x4 =>
         let code := ((x1 * 16 + x2) * 16 + x3) * 16 + x4
         if 0xD800 ≤ code ∧ code ≤ 0xDFFF then none
         else (parseStrBody rest).map (fun p => (Char.ofNat code :: p.1, p.2))
       | _, _, _, _ => none) := by
  rw [parseStrBody.eq_def]; simp

theorem parseStrBody_escape (s rest : Str) :
    parseStrBody (escapeStr s ++ '"' :: rest) = some (s, rest) := by
  induction s with
  | nil => exact psb_quote rest
  | cons c s' ih =>
    rw [show escapeStr (c :: s') = escapeChar c ++ escapeStr s' from rfl,
        List.append_assoc]
    by_cases h1 : c = '"'
    · subst h1
      show parseStrBody ('\\' :: '"' :: (escapeStr s' ++ '"' :: rest)) = _
      rw [psb_esc_quote, ih] <;> rfl <;> rfl
    · by_cases h2 : c = '\\'
      · subst h2
        show parseStrBody ('\\' :: '\\' :: (escapeStr s' ++ '"' :: rest)) = _
        rw [psb_esc_backslash, ih] <;> rfl <;> rfl
      · by_cases h3 : c = Char.ofNat 8
        · subst h3
          show parseStrBody ('\\' :: 'b' :: (escapeStr s' ++ '"' :: rest)) = _
          rw [psb_esc_b, ih] <;> rfl <;> rfl
        · by_cases h4 : c = Char.ofNat 12
          · subst h4
            show parseStrBody ('\\' :: 'f' :: (escapeStr s' ++ '"' :: rest)) = _
            rw [psb_esc_f, ih] <;> rfl <;> rfl
          · by_cases h5 : c = '\n'
            · subst h5
              show parseStrBody ('\\' :: 'n' :: (escapeStr s' ++ '"' :: rest)) = _
              rw [psb_esc_n, ih] <;> rfl <;> rfl
            · by_cases h6 : c = '\r'
              · subst h6
                show parseStrBody ('\\' :: 'r' :: (escapeStr s' ++ '"' :: rest)) = _
                rw [psb_esc_r, ih] <;> rfl <;> rfl
              · by_cases h7 : c = '\t'
                · subst h7
                  show parseStrBody ('\\' :: 't' :: (escapeStr s' ++ '"' :: rest)) = _
                  rw [psb_esc_t, ih] <;> rfl <;> rfl
                · by_cases h8 : c.toNat < 32
                  · rw [show escapeChar c =
                        ['\\', 'u', '0', '0', hexDig (c.toNat / 16), hexDig (c.toNat % 16)]
                        from by simp [escapeChar, h1, h2, h3, h4, h5, h6, h7, h8]]
                    show parseStrBody ('\\' :: 'u' :: '0' :: '0' ::
                        hexDig (c.toNat / 16) :: hexDig (c.toNat % 16) ::
                        (escapeStr s' ++ '"' :: rest)) = _
                    rw [psb_u,
                        hexVal?_hexDig (show c.toNat / 16 < 16 by omega),
                        hexVal?_hexDig (show c.toNat % 16 < 16 by omega)]
                    show (let code := ((('0'.toNat - '0'.toNat) * 16 + ('0'.toNat - '0'.toNat)) * 16
                            + c.toNat / 16) * 16 + c.toNat % 16
                          if 0xD800 ≤ code ∧ code ≤ 0xDFFF then none
                          else (parseStrBody (escapeStr s' ++ '"' :: rest)).map
                            (fun p => (Char.ofNat code :: p.1, p.2))) = _
                    rw [show ((('0'.toNat - '0'.toNat) * 16 + ('0'.toNat - '0'.toNat)) * 16
                          + c.toNat / 16) * 16 + c.toNat % 16 = c.toNat from by omega]
                    rw [if_neg (by omega), Char.ofNat_toNat, ih] <;> rfl
                  · rw [show escapeChar c = [c]
                        from by simp [escapeChar, h1, h2, h3, h4, h5, h6, h7, h8]]
                    show parseStrBody (c :: (escapeStr s' ++ '"' :: rest)) = _
                    rw [psb_plain c _ h1 h2 h8, ih] <;> rfl

theorem parseVal_strLit (n : Nat) (v W : Str) :
    parseVal (n + 1) (' ' :: (strLit v ++ W)) = some (JVal.str v, W) := by
  rw [parseVal.eq_def]
  show (match skipJsonWs (' ' :: (strLit v ++ W)) with
        | [] => none
        | c :: r =>
          if c = '"' then (parseStrBody r).map (fun p => (JVal.str p.1, p.2))
          else if c = lbrace then
            match skipJsonWs r with
            | [] => none
            | c' :: r' =>
              if c' = rbrace then some (.obj [], r')
              else (parseMembers n (c' :: r')).map (fun p => (.obj p.1, p.2))
          else if c = '[' then
            match skipJsonWs r with
            | [] => none
            | c' :: r' =>
              if c' = ']' then some (.arr [], r')
              else (parseElems n (c' :: r')).map (fun p => (.arr p.1, p.2))
          else if c = 'n' then (dropLit? ['u', 'l', 'l'] r).map (fun r' => (.null, r'))
          else if c = 't' then (dropLit? ['r', 'u', 'e'] r).map (fun r' => (.bool true, r'))
          else if c = 'f' then (dropLit? ['a', 'l', 's', 'e'] r).map (fun r' => (.bool false, r'))
          else parseNum (c :: r)) = some (JVal.str v, W)
  rw [show skipJsonWs (' ' :: (strLit v ++ W)) = '"' :: ((escapeStr v ++ ['"']) ++ W) from rfl]
  show (parseStrBody ((escapeStr v ++ ['"']) ++ W)).map (fun p => (JVal.str p.1, p.2)) = _
  rw [List.append_assoc, show ['"'] ++ W = '"' :: W from rfl, parseStrBody_escape]
  rfl

theorem parseMembers_ws (n : Nat) (x : Str) :
    parseMembers (n + 1) (' ' :: x) = parseMembers (n + 1) x := by
  rw [parseMembers.eq_def]
  conv_rhs => rw [parseMembers.eq_def]
  rfl

theorem parseMembers_member (n : Nat) (k v rest : Str) :
    parseMembers (n + 2) (strLit k ++ ':' :: ' ' :: (strLit v ++ ',' :: ' ' :: rest)) =
      (parseMembers (n + 1) (' ' :: rest)).map (fun p => ((k, JVal.str v) :: p.1, p.2)) := by
  rw [parseMembers.eq_def]
  show (match skipJsonWs (strLit k ++ ':' :: ' ' :: (strLit v ++ ',' :: ' ' :: rest)) with
        | [] => none
        | c :: r =>
          if c = '"' then
            match parseStrBody r with
            | none => none
            | some (k', r1) =>
              match skipJsonWs r1 with
              | [] => none
              | c2 :: r2 =>
                if c2 = ':' then
                  match parseVal (n + 1) r2 with
                  | none => none
                  | some (v', r3) =>
                    match skipJsonWs r3 with
                    | [] => none
                    | c4 :: r4 =>
                      if c4 = ',' then
                        (parseMembers (n + 1) r4).map (fun (p : List (Str × JVal) × Str) => ((k', v') :: p.1, p.2))
                      else if c4 = rbrace then some ([(k', v')], r4)
                      else none
                else none
          else none) = _
  rw [show skipJsonWs (strLit k ++ ':' :: ' ' :: (strLit v ++ ',' :: ' ' :: rest)) =
        '"' :: ((escapeStr k ++ ['"']) ++ ':' :: ' ' :: (strLit v ++ ',' :: ' ' :: rest))
      from rfl]
  show (match parseStrBody ((escapeStr k ++ ['"']) ++ ':' :: ' ' :: (strLit v ++ ',' :: ' ' :: rest)) with
        | none => none
        | some (k', r1) =>
          match skipJsonWs r1 with
          | [] => none
          | c2 :: r2 =>
            if c2 = ':' then
              match parseVal (n + 1) r2 with
              | none => none
              | some (v', r3) =>
                match skipJsonWs r3 with
                | [] => none
                | c4 :: r4 =>
                  if c4 = ',' then
                    (parseMembers (n + 1) r4).map (fun (p : List (Str × JVal) × Str) => ((k', v') :: p.1, p.2))
                  else if c4 = rbrace then some ([(k', v')], r4)
                  else none
            else none) = _
  rw [List.append_assoc,
      show ['"'] ++ ':' :: ' ' :: (strLit v ++ ',' :: ' ' :: rest) =
        '"' :: ':' :: ' ' :: (strLit v ++ ',' :: ' ' :: rest) from rfl,
      parseStrBody_escape]
  show (match parseVal (n + 1) (' ' :: (strLit v ++ ',' :: ' ' :: rest)) with
        | none => none
        | some (v', r3) =>
          match skipJsonWs r3 with
          | [] => none
          | c4 :: r4 =>
            if c4 = ',' then
              (parseMembers (n + 1) r4).map (fun (p : List (Str × JVal) × Str) => ((k, v') :: p.1, p.2))
            else if c4 = rbrace then some ([(k, v')], r4)
            else none) = _
  rw [parseVal_strLit]
  rfl

theorem parseMembers_last (n : Nat) (k v : Str) :
    parseMembers (n + 2) (strLit k ++ ':' :: ' ' :: (strLit v ++ [rbrace])) =
      some ([(k, JVal.str v)], []) := by
  rw [parseMembers.eq_def]
  show (match skipJsonWs (strLit k ++ ':' :: ' ' :: (strLit v ++ [rbrace])) with
        | [] => none
        | c :: r =>
          if c = '"' then
            match parseStrBody r with
            | none => none
            | some (k', r1) =>
              match skipJsonWs r1 with
              | [] => none
              | c2 :: r2 =>
                if c2 = ':' then
                  match parseVal (n + 1) r2 with
                  | none => none
                  | some (v', r3) =>
                    match skipJsonWs r3 with
                    | [] => none
                    | c4 :: r4 =>
                      if c4 = ',' then
                        (parseMembers (n + 1) r4).map (fun (p : List (Str × JVal) × Str) => ((k', v') :: p.1, p.2))
                      else if c4 = rbrace then some ([(k', v')], r4)
                      else none
                else none
          else none) = _
  rw [show skipJsonWs (strLit k ++ ':' :: ' ' :: (strLit v ++ [rbrace])) =
        '"' :: ((escapeStr k ++ ['"']) ++ ':' :: ' ' :: (strLit v ++ [rbrace]))
      from rfl]
  show (match parseStrBody ((escapeStr k ++ ['"']) ++ ':' :: ' ' :: (strLit v ++ [rbrace])) with
        | none => none
        | some (k', r1) =>
          match skipJsonWs r1 with
          | [] => none
          | c2 :: r2 =>
            if c2 = ':' then
              match parseVal (n + 1) r2 with
              | none => none
              | some (v', r3) =>
                match skipJsonWs r3 with
                | [] => none
                | c4 :: r4 =>
                  if c4 = ',' then
                    (parseMembers (n + 1) r4).map (fun (p : List (Str × JVal) × Str) => ((k', v') :: p.1, p.2))
                  else if c4 = rbrace then some ([(k', v')], r4)
                  else none
            else none) = _
  rw [List.append_assoc,
      show ['"'] ++ ':' :: ' ' :: (strLit v ++ [rbrace]) =
        '"' :: ':' :: ' ' :: (strLit v ++ [rbrace]) from rfl,
      parseStrBody_escape]
  show (match parseVal (n + 1) (' ' :: (strLit v ++ [rbrace])) with
        | none => none
        | some (v', r3) =>
          match skipJsonWs r3 with
          | [] => none
          | c4 :: r4 =>
            if c4 = ',' then
              (parseMembers (n + 1) r4).map (fun (p : List (Str × JVal) × Str) => ((k, v') :: p.1, p.2))
            else if c4 = rbrace then some ([(k, v')], r4)
            else none) = _
  rw [parseVal_strLit]
  rfl

theorem parseVal_serialize (f : Nat) (r : ScreenDataRec) :
    parseVal (f + 6) (serializeScreenData r) = some (screenDataToJVal r, []) := by
  rw [parseVal.eq_def]
  show (parseMembers (f + 5)
      (strLit nameKey ++ ':' :: ' ' :: (strLit r.name ++ ',' :: ' ' ::
        (strLit descriptionKey ++ ':' :: ' ' :: (strLit r.description ++ ',' :: ' ' ::
        (strLit htmlContentKey ++ ':' :: ' ' :: (strLit r.htmlContent ++ ',' :: ' ' ::
        (strLit cssContentKey ++ ':' :: ' ' :: (strLit r.cssContent ++ [rbrace]))))))))).map
      (fun (p : List (Str × JVal) × Str) => (JVal.obj p.1, p.2)) = some (screenDataToJVal r, [])
  rw [show f + 5 = (f + 3) + 2 from rfl,
      parseMembers_member, parseMembers_ws,
      show (f + 3) + 1 = (f + 2) + 2 from rfl,
      parseMembers_member, parseMembers_ws,
      show (f + 2) + 1 = (f + 1) + 2 from rfl,
      parseMembers_member, parseMembers_ws,
      show (f + 1) + 1 = f + 2 from rfl,
      parseMembers_last]
  rfl

theorem jsonParse_serialize (r : ScreenDataRec) :
    jsonParse (serializeScreenData r) = some (screenDataToJVal r) := by
  obtain ⟨f, hf⟩ : ∃ f, (serializeScreenData r).length + 1 = f + 6 := by
    refine ⟨(serializeScreenData r).length - 5, ?_⟩
    have h5 : 5 ≤ (serializeScreenData r).length := by
      simp [serializeScreenData, strLit, List.length_append]
      omega
    omega
  unfold jsonParse
  rw [hf, parseVal_serialize]
  rfl

/-- C8: for every record with the four string fields `name`,
`description`, `htmlContent`, `cssContent`, applying `extractJSON` to
its well-formed structured (JSON) serialization recovers an equivalent
record through the first extraction strategy: the result is the object
whose four fields hold exactly the original strings (escaping of
quotes, backslashes and control characters round-trips). -/
theorem extractJSON_roundtrip (r : ScreenDataRec) :
    extractJSON (serializeScreenData r) = some (screenDataToJVal r) ∧
    jvGet (screenDataToJVal r) nameKey = some (.str r.name) ∧
    jvGet (screenDataToJVal r) descriptionKey = some (.str r.description) ∧
    jvGet (screenDataToJVal r) htmlContentKey = some (.str r.htmlContent) ∧
    jvGet (screenDataToJVal r) cssContentKey = some (.str r.cssContent) := by
  refine ⟨?_, rfl, rfl, rfl, rfl⟩
  unfold extractJSON
  rw [jsonParse_serialize]

/-- C7: for every input text on which the first three extraction
strategies fail (direct parse, fenced block, brace span), `extractJSON`
is exactly the field-by-field regular-expression strategy: it succeeds
precisely when both the `name` pattern and the `htmlContent` pattern
match, in which case missing `description`/`cssContent` captures
default to the empty string; when either required pattern is missing,
the result is NoMatch (`none`). -/
theorem extractJSON_strategy4 (text : Str)
    (h1 : jsonParse text = none)
    (h2 : strat2 text = none)
    (h3 : strat3 text = none) :
    extractJSON text = strat4 text ∧
    (∀ n h, fieldScan nameKey text = some n → htmlFieldScan text = some h →
        extractJSON text =
          some (.obj [(nameKey, .str n),
                      (descriptionKey, .str ((fieldScan descriptionKey text).getD [])),
                      (htmlContentKey, .str h),
                      (cssContentKey, .str ((fieldScan cssContentKey text).getD []))])) ∧
    ((fieldScan nameKey text = none ∨ htmlFieldScan text = none) →
        extractJSON text = none) := by
  have hbase : extractJSON text = strat4 text := by
    unfold extractJSON
    rw [h1, h2, h3]
  refine ⟨hbase, ?_, ?_⟩
  · intro n h hn hh
    rw [hbase]
    unfold strat4
    rw [hn, hh]
  · intro hor
    rw [hbase]
    unfold strat4
    rcases hor with hn | hh
    · rw [hn]
    · rw [hh]
      cases hname : fieldScan nameKey text <;> rfl

/-- Witness for C7 on two concrete texts: one where only strategy 4
succeeds (recovering `Home` and the html snippet with empty defaults),
one with no recoverable structure at all (NoMatch). -/
theorem extractJSON_strategy4_witness :
    extractJSON ("oops \"name\": \"Home\", \"htmlContent\": \"<div>hi</div>\"\x7d".toList) =
      some (.obj [(nameKey, .str ("Home".toList)),
                  (descriptionKey, .str ((fieldScan descriptionKey
                    ("oops \"name\": \"Home\", \"htmlContent\": \"<div>hi</div>\"\x7d".toList)).getD [])),
                  (htmlContentKey, .str ("<div>hi</div>".toList)),
                  (cssContentKey, .str ((fieldScan cssContentKey
                    ("oops \"name\": \"Home\", \"htmlContent\": \"<div>hi</div>\"\x7d".toList)).getD []))]) ∧
    extractJSON ("no structure at all".toList) = none :=
  ⟨(extractJSON_strategy4
      ("oops \"name\": \"Home\", \"htmlContent\": \"<div>hi</div>\"\x7d".toList)
      rfl rfl rfl).2.1 ("Home".toList) ("<div>hi</div>".toList) rfl rfl,
   (extractJSON_strategy4 ("no structure at all".toList) rfl rfl rfl).2.2 (Or.inl rfl)⟩
